import Mathlib

/-!
Verification of the stall-classification and changelog-intelligence engine
of the pitstop repository, as a shallow embedding in Lean.

Modelling conventions:
* JavaScript timestamps (`Date` values) are rationals counting milliseconds
  since the epoch; date subtraction and the divisions by `1000 * 60 * 60`
  (hours) and `1000 * 60 * 60 * 24` (days) are carried out exactly in `ℚ`.
* Asynchronous collaborator calls (Jira fetches) become explicit inputs:
  every function takes the already-fetched data that the source awaited.
* Presentation-only strings (human-readable `message` fields, icons,
  emoji) are elided from records; every field a decision depends on is kept.
* JavaScript `x || y` on numbers and strings (which treats `0`, `""`,
  `null` and `undefined` as falsy) is modelled by explicit helpers below.
-/

namespace Pitstop

/-- Severity / confidence levels used by the engine.  The source represents
them as the strings "CRITICAL", "HIGH", "MEDIUM", "LOW"; these four are the
only values the program ever constructs. -/
inductive Severity where
  | CRITICAL
  | HIGH
  | MEDIUM
  | LOW
deriving DecidableEq, Repr

/-- The `severityOrder` map `{ CRITICAL: 4, HIGH: 3, MEDIUM: 2, LOW: 1 }`
from `telemetry.js` (`getHighestSeverity`). -/
def severityOrder : Severity → Nat
  | .CRITICAL => 4
  | .HIGH => 3
  | .MEDIUM => 2
  | .LOW => 1

/-- JavaScript `o || d` for an optional number: `0` (and a missing value)
is falsy and falls through to the default. -/
def jsOrNum (o : Option ℚ) (d : ℚ) : ℚ :=
  match o with
  | some v => if v = 0 then d else v
  | none => d

/-- JavaScript `a || b` where `a` is an optional number and `b` is itself
optional (used for the chained lookup `thresholds[status] || thresholds["default"]`). -/
def jsOrOpt (a b : Option ℚ) : Option ℚ :=
  match a with
  | some v => if v = 0 then b else some v
  | none => b

/-- JavaScript `s || d` for an optional string: the empty string is falsy. -/
def jsOrStr (o : Option String) (d : String) : String :=
  match o with
  | some s => if s = "" then d else s
  | none => d

/-- Substring test on character lists (JavaScript `String.prototype.includes`). -/
def charsInclude (hay pat : List Char) : Bool :=
  match hay with
  | [] => pat.isEmpty
  | _ :: t => pat.isPrefixOf hay || charsInclude t pat

/-- JavaScript `hay.includes(pat)`. -/
def strIncludes (hay pat : String) : Bool :=
  charsInclude hay.toList pat.toList

/-- JavaScript `s.toLowerCase()`: `String.toLower` written as the
character-list map it is defined as. -/
def jsToLower (s : String) : String :=
  ⟨s.data.map Char.toLower⟩

/-! ## configManager.js -/

/-- A `ThresholdConfig`: a mapping from status name to hours, modelled as
an association list (first binding wins, like JS property lookup). -/
def ThresholdConfig := List (String × ℚ)

/-- `DEFAULT_THRESHOLDS` from `configManager.js`. -/
def DEFAULT_THRESHOLDS : ThresholdConfig :=
  [("In Progress", 48), ("In Review", 24), ("Code Review", 24),
   ("To Do", 168), ("Backlog", 336), ("Blocked", 12),
   ("Testing", 48), ("QA", 48), ("default", 72)]

/-- Lookup of a status key in a threshold config. -/
def thresholdLookup (t : ThresholdConfig) (status : String) : Option ℚ :=
  List.lookup status t

/-- `getThresholdForStatus` from `configManager.js`:
`thresholds[status] || thresholds["default"] || 72`.  The storage-backed
`getThresholds()` result is passed in explicitly. -/
def getThresholdForStatus (thresholds : ThresholdConfig) (status : String) : ℚ :=
  jsOrNum (jsOrOpt (thresholdLookup thresholds status) (thresholdLookup thresholds "default")) 72

/-- Feature toggles of the default settings object (`getDefaultSettings`). -/
structure Features where
  detectNoActivity : Bool
  detectNoHumanComments : Bool
  detectUnassigned : Bool
  detectBlockers : Bool
  detectAssignedNotProgressing : Bool
  postComments : Bool
  postStallWarnings : Bool
  postEncouragement : Bool
  useChangelogAnalysis : Bool
  useContextualSuggestions : Bool
deriving DecidableEq, Repr

/-- Auto-action settings (present in `getDefaultSettings`, unused by the
classifier). -/
structure AutoActions where
  enabled : Bool
  autoPingAssignee : Bool
  autoPingThresholdHours : ℚ
  autoAddStalledLabel : Bool
  autoReassignInactive : Bool
  autoMoveStatus : Bool
  autoEscalateCritical : Bool
deriving DecidableEq, Repr

/-- The general settings object returned by `getSettings` / `getDefaultSettings`. -/
structure Settings where
  noHumanCommentThreshold : ℚ
  commentCooldownHours : ℚ
  maxIssuesPerRun : Nat
  features : Features
  autoActions : AutoActions
  activeStatuses : List String
deriving Repr

/-- `getDefaultSettings` from `configManager.js`. -/
def getDefaultSettings : Settings :=
  { noHumanCommentThreshold := 96
    commentCooldownHours := 24
    maxIssuesPerRun := 50
    features :=
      { detectNoActivity := true
        detectNoHumanComments := true
        detectUnassigned := true
        detectBlockers := true
        detectAssignedNotProgressing := true
        postComments := true
        postStallWarnings := true
        postEncouragement := false
        useChangelogAnalysis := true
        useContextualSuggestions := true }
    autoActions :=
      { enabled := false
        autoPingAssignee := true
        autoPingThresholdHours := 72
        autoAddStalledLabel := true
        autoReassignInactive := false
        autoMoveStatus := false
        autoEscalateCritical := false }
    activeStatuses :=
      ["In Progress", "In Review", "Code Review", "To Do", "Blocked",
       "Testing", "QA"] }

/-! ## changelogAnalyzer.js -/

/-- `BOT_PATTERNS` from `changelogAnalyzer.js`. -/
def BOT_PATTERNS : List String :=
  ["automation", "bot", "jira", "service", "system", "[bot]", "forge-app"]

/-- `MEANINGFUL_CHANGES` from `changelogAnalyzer.js`. -/
def MEANINGFUL_CHANGES : List String :=
  ["status", "assignee", "priority", "resolution", "Sprint", "Fix Version",
   "labels", "description"]

/-- `NOISE_CHANGES` from `changelogAnalyzer.js`. -/
def NOISE_CHANGES : List String :=
  ["Rank", "timeestimate", "timespent", "worklog", "attachment"]

/-- A changelog author (`entry.author`); both fields may be missing in the
raw Jira payload. -/
structure Author where
  displayName : Option String
  accountType : Option String
deriving DecidableEq, Repr

/-- One field transition inside a history entry (`entry.items[i]`).  The
`fromString` / `toString` values are modelled as plain strings. -/
structure ChangeItem where
  field : String
  fieldtype : String
  fromString : String
  toString : String
deriving DecidableEq, Repr

/-- One changelog history entry: one (possibly absent) author, one
timestamp, a batch of field changes. -/
structure ChangelogEntry where
  author : Option Author
  created : ℚ
  items : List ChangeItem
deriving DecidableEq, Repr

/-- `isBotUser` from `changelogAnalyzer.js`. -/
def isBotUser (author : Option Author) : Bool :=
  match author with
  | none => true
  | some a =>
    let displayName := jsToLower (jsOrStr a.displayName "")
    let accountType := jsOrStr a.accountType ""
    if accountType = "app" || accountType = "system" then
      true
    else
      BOT_PATTERNS.any (fun pattern => strIncludes displayName pattern)

/-- The per-item signal test: `MEANINGFUL_CHANGES.includes(field) && !isBot`. -/
def isMeaningfulChange (isBot : Bool) (item : ChangeItem) : Bool :=
  MEANINGFUL_CHANGES.contains item.field && !isBot

/-- The per-item noise test: `NOISE_CHANGES.includes(field) || isBot`. -/
def isNoiseChange (isBot : Bool) (item : ChangeItem) : Bool :=
  NOISE_CHANGES.contains item.field || isBot

/-- An element of the analyzer's `timeline` array. -/
structure TimelineItem where
  date : ℚ
  author : String
  field : String
  fromVal : String
  toVal : String
deriving DecidableEq, Repr

/-- An element of the local `statusChanges` array (also used, reshaped,
for `statusHistory`): `{ date, from, to, author }` — `from`/`to` are
renamed `fromVal`/`toVal` because `from` is reserved in Lean. -/
structure StatusChange where
  date : ℚ
  fromVal : String
  toVal : String
  author : String
deriving DecidableEq, Repr

/-- A detected behavioural pattern.  `message`/`details` evidence strings
are elided; the numeric evidence the messages interpolate is kept. -/
structure Pattern where
  type : String
  severity : Severity
  count : Option Nat := none
  statuses : Option (List String) := none
  days : Option ℤ := none
  status : Option String := none
deriving DecidableEq, Repr

/-- Pattern 1 of `detectPatterns`: status thrashing — 5+ status changes
overall and 5+ of them within the last 48 hours. -/
def statusThrashingCheck (statusChanges : List StatusChange) (now : ℚ) : List Pattern :=
  if statusChanges.length ≥ 5 then
    let recentChanges := statusChanges.filter
      (fun change => (now - change.date) / (1000 * 60 * 60) < 48)
    if recentChanges.length ≥ 5 then
      [{ type := "STATUS_THRASHING", severity := .HIGH,
         count := some recentChanges.length }]
    else []
  else []

/-- Pattern 2 of `detectPatterns`: status ping-pong — with 3+ changes
overall, the 5 most recent destinations span exactly 2 distinct values
(`[...new Set(...)]` keeps first occurrences, like `eraseDups`). -/
def statusPingPongCheck (statusChanges : List StatusChange) : List Pattern :=
  if statusChanges.length ≥ 3 then
    let recent := statusChanges.take 5
    let uniqueStatuses := (recent.map (fun c => c.toVal)).eraseDups
    if uniqueStatuses.length = 2 then
      [{ type := "STATUS_PING_PONG", severity := .MEDIUM,
         statuses := some uniqueStatuses, count := some recent.length }]
    else []
  else []

/-- Pattern 3 of `detectPatterns`: assignment churning — 3+ assignments
overall and 3+ within the last 168 hours. -/
def assignmentChurningCheck (assignments : List StatusChange) (now : ℚ) : List Pattern :=
  if assignments.length ≥ 3 then
    let recentAssignments := assignments.filter
      (fun a => (now - a.date) / (1000 * 60 * 60) < 168)
    if recentAssignments.length ≥ 3 then
      [{ type := "ASSIGNMENT_CHURNING", severity := .MEDIUM,
         count := some recentAssignments.length }]
    else []
  else []

/-- Pattern 4 of `detectPatterns`: multiple reopens — 2+ status changes
whose destination contains "open" or "reopened" (case-insensitively). -/
def multipleReopensCheck (statusChanges : List StatusChange) : List Pattern :=
  let reopens := statusChanges.filter
    (fun c => strIncludes (jsToLower c.toVal) "open" ||
      strIncludes (jsToLower c.toVal) "reopened")
  if reopens.length ≥ 2 then
    [{ type := "MULTIPLE_REOPENS", severity := .HIGH,
       count := some reopens.length }]
  else []

/-- Pattern 5 of `detectPatterns`: stuck in status — the most recent
status change is more than 168 hours old. -/
def stuckInStatusCheck (statusChanges : List StatusChange) (now : ℚ) : List Pattern :=
  match statusChanges with
  | [] => []
  | lastStatusChange :: _ =>
    let hoursSince := (now - lastStatusChange.date) / (1000 * 60 * 60)
    if hoursSince > 168 then
      [{ type := "STUCK_IN_STATUS", severity := .MEDIUM,
         status := some lastStatusChange.toVal, days := some ⌊hoursSince / 24⌋ }]
    else []

/-- `detectPatterns` from `changelogAnalyzer.js`: the five independent
pattern checks over the status-change and assignment timelines
(most-recent-first), relative to `now`; each check appends its patterns
in source order. -/
def detectPatterns (statusChanges assignments : List StatusChange) (now : ℚ) :
    List Pattern :=
  statusThrashingCheck statusChanges now ++ statusPingPongCheck statusChanges ++
  assignmentChurningCheck assignments now ++ multipleReopensCheck statusChanges ++
  stuckInStatusCheck statusChanges now

/-- The `ChangelogAnalysis` record produced by `analyzeChangelog`. -/
structure ChangelogAnalysis where
  lastMeaningfulUpdate : Option ℚ
  lastMeaningfulUpdateBy : Option String
  totalChanges : Nat
  meaningfulChanges : Nat
  noiseChanges : Nat
  patterns : List Pattern
  timeline : List TimelineItem
  statusHistory : List StatusChange
  assignmentHistory : List StatusChange
  thrashing : Bool
deriving DecidableEq, Repr

/-- Mutable loop state of `analyzeChangelog` (everything accumulated before
pattern detection). -/
structure AnalyzerState where
  lastMeaningfulUpdate : Option ℚ
  lastMeaningfulUpdateBy : Option String
  totalChanges : Nat
  meaningfulChanges : Nat
  noiseChanges : Nat
  timeline : List TimelineItem
  statusHistory : List StatusChange
  assignmentHistory : List StatusChange
  statusChanges : List StatusChange
  assignments : List StatusChange
deriving Repr

/-- The initial accumulator of `analyzeChangelog`. -/
def initAnalyzerState : AnalyzerState :=
  { lastMeaningfulUpdate := none, lastMeaningfulUpdateBy := none
    totalChanges := 0, meaningfulChanges := 0, noiseChanges := 0
    timeline := [], statusHistory := [], assignmentHistory := []
    statusChanges := [], assignments := [] }

/-- Body of the inner `for (const item of entry.items)` loop. -/
def processItem (isBot : Bool) (author : String) (created : ℚ)
    (st : AnalyzerState) (item : ChangeItem) : AnalyzerState :=
  let fromValue := item.fromString
  let toValue := item.toString
  if isMeaningfulChange isBot item then
    let st :=
      { st with
        meaningfulChanges := st.meaningfulChanges + 1
        lastMeaningfulUpdate :=
          match st.lastMeaningfulUpdate with
          | none => some created
          | some cur => if created > cur then some created else some cur
        lastMeaningfulUpdateBy :=
          match st.lastMeaningfulUpdate with
          | none => some author
          | some cur => if created > cur then some author else st.lastMeaningfulUpdateBy
        timeline := st.timeline ++
          [{ date := created, author := author, field := item.field,
             fromVal := fromValue, toVal := toValue }] }
    let st :=
      if item.field = "status" then
        { st with
          statusChanges := st.statusChanges ++
            [{ date := created, fromVal := fromValue, toVal := toValue, author := author }]
          statusHistory := st.statusHistory ++
            [{ date := created, fromVal := fromValue, toVal := toValue, author := author }] }
      else st
    if item.field = "assignee" then
      { st with
        assignments := st.assignments ++
          [{ date := created, fromVal := fromValue, toVal := toValue, author := author }]
        assignmentHistory := st.assignmentHistory ++
          [{ date := created, fromVal := fromValue, toVal := toValue, author := author }] }
    else st
  else if isNoiseChange isBot item then
    { st with noiseChanges := st.noiseChanges + 1 }
  else st

/-- Body of the outer `for (const entry of changelog)` loop. -/
def processEntry (st : AnalyzerState) (entry : ChangelogEntry) : AnalyzerState :=
  let author := jsOrStr (entry.author.bind (fun a => a.displayName)) "Unknown"
  let isBot := isBotUser entry.author
  entry.items.foldl (processItem isBot author entry.created)
    { st with totalChanges := st.totalChanges + 1 }

/-- The empty analysis returned for an empty changelog. -/
def emptyAnalysis : ChangelogAnalysis :=
  { lastMeaningfulUpdate := none, lastMeaningfulUpdateBy := none
    totalChanges := 0, meaningfulChanges := 0, noiseChanges := 0
    patterns := [], timeline := [], statusHistory := []
    assignmentHistory := [], thrashing := false }

/-- `analyzeChangelog` from `changelogAnalyzer.js`, over the already
fetched, most-recent-first history list. -/
def analyzeChangelog (changelog : List ChangelogEntry) (now : ℚ) :
    ChangelogAnalysis :=
  if changelog.isEmpty then emptyAnalysis
  else
    let st := changelog.foldl processEntry initAnalyzerState
    let patterns := detectPatterns st.statusChanges st.assignments now
    { lastMeaningfulUpdate := st.lastMeaningfulUpdate
      lastMeaningfulUpdateBy := st.lastMeaningfulUpdateBy
      totalChanges := st.totalChanges
      meaningfulChanges := st.meaningfulChanges
      noiseChanges := st.noiseChanges
      patterns := patterns
      timeline := st.timeline
      statusHistory := st.statusHistory
      assignmentHistory := st.assignmentHistory
      thrashing := patterns.any (fun p => p.type = "STATUS_THRASHING") }

/-- A Jira user object (the fields the classifier reads). -/
structure User where
  displayName : String
  active : Bool
deriving DecidableEq, Repr

/-- The issue snapshot consumed by `isStalled` (flattening of
`issue.fields.*`: `status` is `issue.fields.status.name`). -/
structure Issue where
  id : String
  key : String
  status : String
  assignee : Option User
  created : ℚ
  updated : ℚ
deriving DecidableEq, Repr

/-- `getRealLastActivity` from `changelogAnalyzer.js`. -/
def getRealLastActivity (issue : Issue) (changelogAnalysis : Option ChangelogAnalysis) : ℚ :=
  match changelogAnalysis with
  | none => issue.updated
  | some ca =>
    match ca.lastMeaningfulUpdate with
    | some d => d
    | none => issue.updated

/-! ## telemetry.js (the Phase-2 `isStalled` classifier) -/

/-- Result of `getLastHumanComment` when a human comment exists. -/
structure LastComment where
  created : ℚ
  author : String
deriving DecidableEq, Repr

/-- Result of `checkForBlockers` (its catch path yields
`{isBlocked: false, count: 0, blockers: []}`). -/
structure BlockersInfo where
  isBlocked : Bool
  count : Nat
  blockers : List String
deriving DecidableEq, Repr

/-- One stall reason.  `message` is elided; the variant-specific fields
the detectors attach are kept as options (absent on other variants). -/
structure StallReason where
  type : String
  severity : Severity
  hours : Option ℤ := none
  threshold : Option ℚ := none
  days : Option ℤ := none
  assignee : Option String := none
  lastAuthor : Option String := none
  blockers : Option (List String) := none
  count : Option Nat := none
  status : Option String := none
  pattern : Bool := false
deriving DecidableEq, Repr

/-- `getHighestSeverity` from `telemetry.js`. -/
def getHighestSeverity (reasons : List StallReason) : Severity :=
  reasons.foldl
    (fun highest reason =>
      if severityOrder reason.severity > severityOrder highest then reason.severity
      else highest)
    .LOW

/-- All the data one `isStalled(issue)` call obtains from its collaborators,
gathered as one input record:
* `changelog`: the history `analyzeChangelog` would fetch for `issue.id`
  (`none` models a failed fetch/analysis, where the JS returns `null`);
* `lastHumanComment`: the result of `getLastHumanComment(issue.id)`;
* `blockers`: the result of `checkForBlockers(issue.id)`;
* `thresholds`: the storage-backed config behind `getThresholdForStatus`;
* `settings`: the result of `getSettings()`. -/
structure ClassifyInput where
  issue : Issue
  now : ℚ
  settings : Settings
  changelog : Option (List ChangelogEntry)
  lastHumanComment : Option LastComment
  blockers : BlockersInfo
  thresholds : ThresholdConfig

/-- The changelog analysis `isStalled` runs when the
`useChangelogAnalysis` feature is on (`null` otherwise). -/
def changelogAnalysisOf (inp : ClassifyInput) : Option ChangelogAnalysis :=
  if inp.settings.features.useChangelogAnalysis then
    inp.changelog.map (fun h => analyzeChangelog h inp.now)
  else none

/-- `lastActivity`: the "real" last activity when changelog analysis is
available, the snapshot's `updated` timestamp otherwise. -/
def lastActivityOf (inp : ClassifyInput) : ℚ :=
  match changelogAnalysisOf inp with
  | some ca => getRealLastActivity inp.issue (some ca)
  | none => inp.issue.updated

/-- `timeSinceUpdate`: effective elapsed hours since last activity. -/
def timeSinceUpdateOf (inp : ClassifyInput) : ℚ :=
  (inp.now - lastActivityOf inp) / (1000 * 60 * 60)

/-- `issueAge` in days. -/
def issueAgeOf (inp : ClassifyInput) : ℚ :=
  (inp.now - inp.issue.created) / (1000 * 60 * 60 * 24)

/-- Check 1: NO_ACTIVITY (gated by `features.detectNoActivity`). -/
def noActivityReasons (inp : ClassifyInput) : List StallReason :=
  if inp.settings.features.detectNoActivity then
    let threshold := getThresholdForStatus inp.thresholds inp.issue.status
    let timeSinceUpdate := timeSinceUpdateOf inp
    if timeSinceUpdate > threshold then
      [{ type := "NO_ACTIVITY",
         severity := if timeSinceUpdate > threshold * 2 then .HIGH else .MEDIUM,
         hours := some ⌊timeSinceUpdate⌋, threshold := some threshold }]
    else []
  else []

/-- Check 2: NO_HUMAN_INTERACTION / NO_COMMENTS (gated by
`features.detectNoHumanComments`). -/
def commentReasons (inp : ClassifyInput) : List StallReason :=
  if inp.settings.features.detectNoHumanComments then
    match inp.lastHumanComment with
    | some lastHumanComment =>
      let timeSinceComment := (inp.now - lastHumanComment.created) / (1000 * 60 * 60)
      if timeSinceComment > inp.settings.noHumanCommentThreshold then
        [{ type := "NO_HUMAN_INTERACTION", severity := .MEDIUM,
           hours := some ⌊timeSinceComment⌋, lastAuthor := some lastHumanComment.author }]
      else []
    | none =>
      if issueAgeOf inp > 2 then
        [{ type := "NO_COMMENTS", severity := .MEDIUM, days := some ⌊issueAgeOf inp⌋ }]
      else []
  else []

/-- Check 3: ASSIGNED_NOT_PROGRESSING (no feature gate in the source). -/
def assignedNotProgressingReasons (inp : ClassifyInput) : List StallReason :=
  match inp.issue.assignee with
  | some assignee =>
    if inp.issue.status = "In Progress" then
      let threshold := getThresholdForStatus inp.thresholds "In Progress"
      let timeSinceUpdate := timeSinceUpdateOf inp
      if timeSinceUpdate > threshold then
        [{ type := "ASSIGNED_NOT_PROGRESSING", severity := .HIGH,
           assignee := some assignee.displayName, hours := some ⌊timeSinceUpdate⌋ }]
      else []
    else []
  | none => []

/-- Check 4: UNASSIGNED_ACTIVE (gated by `features.detectUnassigned`). -/
def unassignedReasons (inp : ClassifyInput) : List StallReason :=
  if inp.settings.features.detectUnassigned then
    if inp.issue.assignee.isNone ∧
        (inp.issue.status = "In Progress" ∨ inp.issue.status = "In Review") then
      [{ type := "UNASSIGNED_ACTIVE", severity := .HIGH, status := some inp.issue.status }]
    else []
  else []

/-- Check 5: HAS_BLOCKERS (gated by `features.detectBlockers`). -/
def blockerReasons (inp : ClassifyInput) : List StallReason :=
  if inp.settings.features.detectBlockers then
    if inp.blockers.isBlocked then
      [{ type := "HAS_BLOCKERS", severity := .CRITICAL,
         blockers := some inp.blockers.blockers, count := some inp.blockers.count }]
    else []
  else []

/-- Check 6: STATUS_BLOCKED (no feature gate in the source). -/
def statusBlockedReasons (inp : ClassifyInput) : List StallReason :=
  if jsToLower inp.issue.status = "blocked" then
    [{ type := "STATUS_BLOCKED", severity := .CRITICAL,
       hours := some ⌊timeSinceUpdateOf inp⌋ }]
  else []

/-- Phase-2 pattern promotion: every changelog pattern becomes a reason. -/
def patternReasons (inp : ClassifyInput) : List StallReason :=
  match changelogAnalysisOf inp with
  | some ca =>
    ca.patterns.map (fun p =>
      { type := p.type, severity := p.severity, pattern := true })
  | none => []

/-- The full, ordered `stallReasons` array built by `isStalled`. -/
def stallReasonsOf (inp : ClassifyInput) : List StallReason :=
  noActivityReasons inp ++ commentReasons inp ++
  assignedNotProgressingReasons inp ++ unassignedReasons inp ++
  blockerReasons inp ++ statusBlockedReasons inp ++ patternReasons inp

/-- The classifier's verdict (`summary`, `actionableInsights` and
`contextualSuggestions` — presentation / separately-modelled outputs —
are elided). -/
structure StallResult where
  isStalled : Bool
  severity : Severity
  reasons : List StallReason
  changelogAnalysis : Option ChangelogAnalysis
deriving Repr

/-- `isStalled` from `telemetry.js` (the Phase-2 intelligence version). -/
def isStalled (inp : ClassifyInput) : StallResult :=
  let stallReasons := stallReasonsOf inp
  { isStalled := decide (stallReasons.length > 0)
    severity := getHighestSeverity stallReasons
    reasons := stallReasons
    changelogAnalysis := changelogAnalysisOf inp }

/-! ## contextAdvisor.js -/

/-- A contextual suggestion.  `icon` and `reason` (presentation strings)
and the optional referenced-user payloads are elided; `type`, `action` and
`confidence` — the fields deduplication and ranking depend on — are kept. -/
structure Suggestion where
  type : String
  action : String
  confidence : Severity
deriving DecidableEq, Repr

/-- The dedup key `` `${s.type}-${s.action}` ``. -/
def suggestionKey (s : Suggestion) : String :=
  s.type ++ "-" ++ s.action

/-- Recursive rendering of `deduplicateSuggestions`' filter over a mutable
`seen` set: keep a suggestion iff its key has not been seen yet. -/
def dedupeAux (seen : List String) : List Suggestion → List Suggestion
  | [] => []
  | s :: rest =>
    let key := suggestionKey s
    if seen.contains key then dedupeAux seen rest
    else s :: dedupeAux (key :: seen) rest

/-- `deduplicateSuggestions` from `contextAdvisor.js`. -/
def deduplicateSuggestions (suggestions : List Suggestion) : List Suggestion :=
  dedupeAux [] suggestions

/-- The `confidenceOrder` map `{ CRITICAL: 4, HIGH: 3, MEDIUM: 2, LOW: 1 }`
from `prioritizeSuggestions`. -/
def confidenceOrder : Severity → Nat
  | .CRITICAL => 4
  | .HIGH => 3
  | .MEDIUM => 2
  | .LOW => 1

/-- `prioritizeSuggestions` from `contextAdvisor.js`: a stable sort with
comparator `confidenceOrder[b.confidence] - confidenceOrder[a.confidence]`,
i.e. descending confidence. -/
def prioritizeSuggestions (suggestions : List Suggestion) : List Suggestion :=
  suggestions.mergeSort
    (fun a b => confidenceOrder b.confidence ≤ confidenceOrder a.confidence)

/-- The tail of `generateContextualSuggestions`: deduplicate, prioritize,
return the top 5 (`prioritized.slice(0, 5)`), applied to the raw
suggestion list the generators accumulated. -/
def returnedSuggestions (suggestions : List Suggestion) : List Suggestion :=
  (prioritizeSuggestions (deduplicateSuggestions suggestions)).take 5

/-! ## dashboardMetrics.js -/

/-- The classifier verdict the dashboard loop reads for one issue. -/
structure StallVerdict where
  isStalled : Bool
  severity : Severity
  reasons : List StallReason
deriving Repr

/-- One issue of the dashboard population, with the outcome of its
per-issue analysis: `outcome = none` models a per-item failure (the
details fetch returned `null`, or `isStalled` threw and was caught). -/
structure DashboardIssue where
  key : String
  status : String
  assignee : Option String
  updated : ℚ
  outcome : Option StallVerdict
deriving Repr

/-- Per-key counts of the `byStatus` / `byAssignee` breakdowns. -/
structure GroupCounts where
  total : Nat
  stalled : Nat
  healthy : Nat
deriving DecidableEq, Repr

/-- The `bySeverity` histogram. -/
structure SeverityCounts where
  CRITICAL : Nat
  HIGH : Nat
  MEDIUM : Nat
  LOW : Nat
deriving DecidableEq, Repr

/-- An element of the `recentlyStalled` list / the `longestStalled` extreme. -/
structure StalledItem where
  key : String
  status : String
  assignee : String
  hoursSinceUpdate : ℤ
  severity : Severity
  reasons : List String
deriving DecidableEq, Repr

/-- The `DashboardMetrics` object. -/
structure DashboardMetrics where
  totalIssues : Nat
  stalledIssues : Nat
  healthyIssues : Nat
  byStatus : List (String × GroupCounts)
  byAssignee : List (String × GroupCounts)
  bySeverity : SeverityCounts
  stallReasons : List (String × Nat)
  averageStallTime : ℤ
  longestStalled : Option StalledItem
  recentlyStalled : List StalledItem
deriving Repr

/-- `getEmptyMetrics` from `dashboardMetrics.js`. -/
def getEmptyMetrics : DashboardMetrics :=
  { totalIssues := 0, stalledIssues := 0, healthyIssues := 0
    byStatus := [], byAssignee := []
    bySeverity := { CRITICAL := 0, HIGH := 0, MEDIUM := 0, LOW := 0 }
    stallReasons := [], averageStallTime := 0
    longestStalled := none, recentlyStalled := [] }

/-- Upsert into an object-as-association-list: apply `f` to the entry for
`k`, initialising it with `init` first if absent (JS
`if (!obj[k]) obj[k] = init; f(obj[k])`). -/
def bumpAssoc (m : List (String × GroupCounts)) (k : String)
    (f : GroupCounts → GroupCounts) : List (String × GroupCounts) :=
  match m with
  | [] => [(k, f { total := 0, stalled := 0, healthy := 0 })]
  | (k', v) :: rest =>
    if k' = k then (k', f v) :: rest else (k', v) :: bumpAssoc rest k f

/-- Upsert into the `stallReasons` frequency histogram. -/
def bumpReasonCount (m : List (String × Nat)) (k : String) : List (String × Nat) :=
  match m with
  | [] => [(k, 1)]
  | (k', v) :: rest =>
    if k' = k then (k', v + 1) :: rest else (k', v) :: bumpReasonCount rest k

/-- Increment one bucket of the severity histogram. -/
def bumpSeverity (c : SeverityCounts) : Severity → SeverityCounts
  | .CRITICAL => { c with CRITICAL := c.CRITICAL + 1 }
  | .HIGH => { c with HIGH := c.HIGH + 1 }
  | .MEDIUM => { c with MEDIUM := c.MEDIUM + 1 }
  | .LOW => { c with LOW := c.LOW + 1 }

/-- Loop state of the dashboard aggregation (the metrics under
construction plus the local `totalStallTime` and `stalledIssuesList`). -/
structure DashboardState where
  metrics : DashboardMetrics
  totalStallTime : ℚ
  stalledIssuesList : List StalledItem
deriving Repr

/-- Body of the dashboard's `for (const issue of issues)` loop.  The
`byStatus`/`byAssignee` totals are bumped before the `try` block, so a
per-item failure (`outcome = none`) still counts there but reaches neither
the stalled nor the healthy branch (`continue` / caught error). -/
def processDashboardIssue (now : ℚ) (st : DashboardState) (issue : DashboardIssue) :
    DashboardState :=
  let status := issue.status
  let assignee := jsOrStr issue.assignee "Unassigned"
  let hoursSinceUpdate := (now - issue.updated) / (1000 * 60 * 60)
  let m := st.metrics
  let m := { m with byStatus :=
               bumpAssoc m.byStatus status (fun c => { c with total := c.total + 1 }) }
  let m := { m with byAssignee :=
               bumpAssoc m.byAssignee assignee (fun c => { c with total := c.total + 1 }) }
  match issue.outcome with
  | none => { st with metrics := m }
  | some stallInfo =>
    if stallInfo.isStalled then
      let m := { m with
        stalledIssues := m.stalledIssues + 1
        byStatus := bumpAssoc m.byStatus status
          (fun c => { c with stalled := c.stalled + 1 })
        byAssignee := bumpAssoc m.byAssignee assignee
          (fun c => { c with stalled := c.stalled + 1 })
        bySeverity := bumpSeverity m.bySeverity stallInfo.severity
        stallReasons := stallInfo.reasons.foldl
          (fun acc (reason : StallReason) => bumpReasonCount acc reason.type)
          m.stallReasons }
      let stalledItem : StalledItem :=
        { key := issue.key, status := status, assignee := assignee
          hoursSinceUpdate := ⌊hoursSinceUpdate⌋
          severity := stallInfo.severity
          reasons := stallInfo.reasons.map (fun r => r.type) }
      let m :=
        match m.longestStalled with
        | none => { m with longestStalled := some stalledItem }
        | some cur =>
          if ⌊hoursSinceUpdate⌋ > cur.hoursSinceUpdate then
            { m with longestStalled := some stalledItem }
          else m
      { metrics := m
        totalStallTime := st.totalStallTime + hoursSinceUpdate
        stalledIssuesList := st.stalledIssuesList ++ [stalledItem] }
    else
      { st with metrics :=
        { m with
          healthyIssues := m.healthyIssues + 1
          byStatus := bumpAssoc m.byStatus status
            (fun c => { c with healthy := c.healthy + 1 })
          byAssignee := bumpAssoc m.byAssignee assignee
            (fun c => { c with healthy := c.healthy + 1 }) } }

/-- `getDashboardMetrics` from `dashboardMetrics.js`.  `listing = none`
models a failed issue-listing call (non-success response, or a thrown
error reaching the outer catch); `some issues` carries the fetched
population together with each issue's per-item analysis outcome. -/
def getDashboardMetrics (listing : Option (List DashboardIssue)) (now : ℚ) :
    DashboardMetrics :=
  match listing with
  | none => getEmptyMetrics
  | some issues =>
    let init : DashboardState :=
      { metrics :=
        { totalIssues := issues.length, stalledIssues := 0, healthyIssues := 0
          byStatus := [], byAssignee := []
          bySeverity := { CRITICAL := 0, HIGH := 0, MEDIUM := 0, LOW := 0 }
          stallReasons := [], averageStallTime := 0
          longestStalled := none, recentlyStalled := [] }
        totalStallTime := 0, stalledIssuesList := [] }
    let st := issues.foldl (processDashboardIssue now) init
    let m := st.metrics
    let m :=
      if m.stalledIssues > 0 then
        { m with averageStallTime := ⌊st.totalStallTime / (m.stalledIssues : ℚ)⌋ }
      else m
    { m with recentlyStalled :=
        (st.stalledIssuesList.mergeSort
          (fun a b => a.hoursSinceUpdate ≤ b.hoursSinceUpdate)).take 10 }

/-! ## Claims -/

/-- A threshold config with a per-status entry of `0` hours: present, yet
skipped by the JavaScript `||` chain. -/
def zeroEntryConfig : ThresholdConfig := [("Blocked", 0), ("default", 5)]

/-- C8 counterexample: for the config `{Blocked: 0, default: 5}` the
per-status entry for "Blocked" is present (with value 0), but the lookup
returns the `default` entry 5 instead owing to `||` treating 0 as falsy —
refuting "returns the per-status entry when it is present". -/
theorem c8_zero_threshold_counterexample :
    thresholdLookup zeroEntryConfig "Blocked" = some 0 ∧
    getThresholdForStatus zeroEntryConfig "Blocked" = 5 := by
  constructor <;> rfl

/-- C8 (amended): the effective threshold lookup returns the per-status
entry when it is present and nonzero, otherwise the `default` entry when
that is present and nonzero, otherwise the constant 72 (JS `||` treats a
stored 0 as absent). -/
theorem getThresholdForStatus_fallback (thresholds : ThresholdConfig) (status : String) :
    (∀ v : ℚ, thresholdLookup thresholds status = some v → v ≠ 0 →
      getThresholdForStatus thresholds status = v) ∧
    ((thresholdLookup thresholds status = none ∨
        thresholdLookup thresholds status = some 0) →
      ∀ w : ℚ, thresholdLookup thresholds "default" = some w → w ≠ 0 →
        getThresholdForStatus thresholds status = w) ∧
    ((thresholdLookup thresholds status = none ∨
        thresholdLookup thresholds status = some 0) →
      (thresholdLookup thresholds "default" = none ∨
        thresholdLookup thresholds "default" = some 0) →
      getThresholdForStatus thresholds status = 72) := by
  unfold getThresholdForStatus jsOrNum jsOrOpt
  refine ⟨?_, ?_, ?_⟩
  · intro v hv hne
    rw [hv]
    simp [hne]
  · rintro (h | h) w hw hne <;> rw [h] <;> simp [hw, hne]
  · rintro (h | h) (h' | h') <;> rw [h] <;> simp [h']

/-- C8 witness: with the default thresholds, the "In Progress" entry 48 is
returned as-is. -/
theorem getThresholdForStatus_fallback_witness :
    getThresholdForStatus DEFAULT_THRESHOLDS "In Progress" = 48 :=
  (getThresholdForStatus_fallback DEFAULT_THRESHOLDS "In Progress").1 48 rfl
    (by norm_num)

/-- C9: when the issue-listing call fails, the Dashboard Aggregator
returns the explicit all-zero metrics object — zero counts, empty
breakdowns and histograms, no longest-stalled issue, empty notable list —
instead of propagating the error. -/
theorem dashboard_listing_failure_empty (now : ℚ) :
    getDashboardMetrics none now = getEmptyMetrics ∧
    getEmptyMetrics.totalIssues = 0 ∧
    getEmptyMetrics.stalledIssues = 0 ∧
    getEmptyMetrics.healthyIssues = 0 ∧
    getEmptyMetrics.byStatus = [] ∧
    getEmptyMetrics.byAssignee = [] ∧
    getEmptyMetrics.bySeverity = { CRITICAL := 0, HIGH := 0, MEDIUM := 0, LOW := 0 } ∧
    getEmptyMetrics.stallReasons = [] ∧
    getEmptyMetrics.averageStallTime = 0 ∧
    getEmptyMetrics.longestStalled = none ∧
    getEmptyMetrics.recentlyStalled = [] := by
  refine ⟨rfl, rfl, rfl, rfl, rfl, rfl, rfl, rfl, rfl, rfl, rfl⟩

/-- Five status changes, all at time 0 (0 hours before the analysis time 0). -/
def fiveRecentChanges : List StatusChange :=
  [{ date := 0, fromVal := "A", toVal := "B", author := "u" },
   { date := 0, fromVal := "B", toVal := "A", author := "u" },
   { date := 0, fromVal := "A", toVal := "B", author := "u" },
   { date := 0, fromVal := "B", toVal := "A", author := "u" },
   { date := 0, fromVal := "A", toVal := "B", author := "u" }]

/-- The same timeline with only four changes. -/
def fourRecentChanges : List StatusChange := fiveRecentChanges.take 4

/-- Every pattern produced by check 2 is a STATUS_PING_PONG pattern. -/
theorem type_of_mem_statusPingPongCheck {sc : List StatusChange} {p : Pattern}
    (h : p ∈ statusPingPongCheck sc) : p.type = "STATUS_PING_PONG" := by
  simp only [statusPingPongCheck] at h
  split at h
  · split at h <;> simp_all
  · simp at h

/-- Every pattern produced by check 3 is an ASSIGNMENT_CHURNING pattern. -/
theorem type_of_mem_assignmentChurningCheck {asg : List StatusChange} {now : ℚ}
    {p : Pattern} (h : p ∈ assignmentChurningCheck asg now) :
    p.type = "ASSIGNMENT_CHURNING" := by
  simp only [assignmentChurningCheck] at h
  split at h
  · split at h <;> simp_all
  · simp at h

/-- Every pattern produced by check 4 is a MULTIPLE_REOPENS pattern. -/
theorem type_of_mem_multipleReopensCheck {sc : List StatusChange} {p : Pattern}
    (h : p ∈ multipleReopensCheck sc) : p.type = "MULTIPLE_REOPENS" := by
  simp only [multipleReopensCheck] at h
  split at h <;> simp_all

/-- Every pattern produced by check 5 is a STUCK_IN_STATUS pattern. -/
theorem type_of_mem_stuckInStatusCheck {sc : List StatusChange} {now : ℚ}
    {p : Pattern} (h : p ∈ stuckInStatusCheck sc now) :
    p.type = "STUCK_IN_STATUS" := by
  cases sc with
  | nil => simp [stuckInStatusCheck] at h
  | cons a t =>
    simp only [stuckInStatusCheck] at h
    split at h <;> simp_all

/-- Every pattern produced by check 1 is a STATUS_THRASHING pattern of
severity HIGH. -/
theorem fields_of_mem_statusThrashingCheck {sc : List StatusChange} {now : ℚ}
    {p : Pattern} (h : p ∈ statusThrashingCheck sc now) :
    p.type = "STATUS_THRASHING" ∧ p.severity = .HIGH := by
  simp only [statusThrashingCheck] at h
  split at h
  · split at h <;> simp_all
  · simp at h

/-- Check 1 fires exactly under its two guards. -/
theorem statusThrashingCheck_nonempty_iff (sc : List StatusChange) (now : ℚ) :
    (∃ p ∈ statusThrashingCheck sc now, p.type = "STATUS_THRASHING") ↔
      (sc.length ≥ 5 ∧
        (sc.filter (fun change => (now - change.date) / (1000 * 60 * 60) < 48)).length ≥ 5) := by
  simp only [statusThrashingCheck]
  constructor
  · rintro ⟨p, hp, -⟩
    split at hp
    · split at hp
      · constructor <;> assumption
      · simp at hp
    · simp at hp
  · rintro ⟨h1, h2⟩
    rw [if_pos h1, if_pos h2]
    exact ⟨_, List.mem_singleton.mpr rfl, rfl⟩

/-- C5: the STATUS_THRASHING pattern (severity HIGH) is present iff the
overall status-change count is at least 5 and at least 5 of those changes
lie within the last 48 hours of the analysis time; exactly 5 recent
changes (and no others) trigger it, 4 do not. -/
theorem status_thrashing_iff (statusChanges assignments : List StatusChange) (now : ℚ) :
    ((∃ p ∈ detectPatterns statusChanges assignments now,
        p.type = "STATUS_THRASHING" ∧ p.severity = .HIGH) ↔
      (statusChanges.length ≥ 5 ∧
        (statusChanges.filter
          (fun change => (now - change.date) / (1000 * 60 * 60) < 48)).length ≥ 5)) ∧
    (∃ p ∈ detectPatterns fiveRecentChanges [] 0,
      p.type = "STATUS_THRASHING" ∧ p.severity = .HIGH) ∧
    ¬(∃ p ∈ detectPatterns fourRecentChanges [] 0, p.type = "STATUS_THRASHING") := by
  have main : ∀ (sc asg : List StatusChange) (t : ℚ),
      (∃ p ∈ detectPatterns sc asg t, p.type = "STATUS_THRASHING" ∧ p.severity = .HIGH) ↔
        (sc.length ≥ 5 ∧
          (sc.filter (fun change => (t - change.date) / (1000 * 60 * 60) < 48)).length ≥ 5) := by
    intro sc asg t
    rw [← statusThrashingCheck_nonempty_iff sc t]
    unfold detectPatterns
    constructor
    · rintro ⟨p, hp, ht, -⟩
      simp only [List.mem_append] at hp
      rcases hp with ((((h | h) | h) | h) | h)
      · exact ⟨p, h, ht⟩
      · rw [type_of_mem_statusPingPongCheck h] at ht; simp at ht
      · rw [type_of_mem_assignmentChurningCheck h] at ht; simp at ht
      · rw [type_of_mem_multipleReopensCheck h] at ht; simp at ht
      · rw [type_of_mem_stuckInStatusCheck h] at ht; simp at ht
    · rintro ⟨p, hp, ht⟩
      refine ⟨p, ?_, ht, (fields_of_mem_statusThrashingCheck hp).2⟩
      simp only [List.mem_append]
      exact Or.inl (Or.inl (Or.inl (Or.inl hp)))
  refine ⟨main statusChanges assignments now, ?_, ?_⟩
  · refine (main fiveRecentChanges [] 0).mpr ⟨by decide, ?_⟩
    have hf : fiveRecentChanges.filter
        (fun change => (0 - change.date) / ((1000 : ℚ) * 60 * 60) < 48) =
        fiveRecentChanges := by
      rw [List.filter_eq_self]
      intro c hc
      fin_cases hc <;> norm_num [fiveRecentChanges]
    rw [hf]
    decide
  · rintro ⟨p, hp, ht⟩
    unfold detectPatterns at hp
    simp only [List.mem_append] at hp
    rcases hp with ((((h | h) | h) | h) | h)
    · simp only [statusThrashingCheck] at h
      rw [if_neg (by decide)] at h
      simp at h
    · rw [type_of_mem_statusPingPongCheck h] at ht; simp at ht
    · rw [type_of_mem_assignmentChurningCheck h] at ht; simp at ht
    · rw [type_of_mem_multipleReopensCheck h] at ht; simp at ht
    · rw [type_of_mem_stuckInStatusCheck h] at ht; simp at ht

/-- Anything surviving deduplication has a key outside the seen set. -/
theorem key_of_mem_dedupeAux {seen : List String} {l : List Suggestion} {x : Suggestion}
    (hx : x ∈ dedupeAux seen l) : suggestionKey x ∉ seen := by
  induction l generalizing seen with
  | nil => simp [dedupeAux] at hx
  | cons s rest ih =>
    simp only [dedupeAux] at hx
    split at hx
    · exact ih hx
    · rcases List.mem_cons.mp hx with rfl | hmem
      · rename_i hc
        intro hmem
        exact hc (List.elem_iff.mpr hmem)
      · intro hc
        exact ih hmem (List.mem_cons_of_mem _ hc)

/-- The deduplicated list has pairwise-distinct keys. -/
theorem pairwise_dedupeAux (seen : List String) (l : List Suggestion) :
    (dedupeAux seen l).Pairwise (fun a b => suggestionKey a ≠ suggestionKey b) := by
  induction l generalizing seen with
  | nil => exact List.Pairwise.nil
  | cons s rest ih =>
    simp only [dedupeAux]
    split
    · exact ih _
    · refine List.Pairwise.cons (fun y hy he => ?_) (ih _)
      exact key_of_mem_dedupeAux hy (he ▸ List.mem_cons_self _ _)

/-- Two suggestions over the same (type, action) pair. -/
def dupSuggestionA : Suggestion :=
  { type := "PING_ASSIGNEE", action := "ping", confidence := .HIGH }

/-- A duplicate of `dupSuggestionA` up to confidence. -/
def dupSuggestionB : Suggestion :=
  { type := "PING_ASSIGNEE", action := "ping", confidence := .LOW }

/-- C4: the advisor's returned list keeps at most one suggestion per
(type, action) pair, is sorted by confidence descending
(CRITICAL, HIGH, MEDIUM, LOW), and has length at most 5; two raw
suggestions with identical type and action collapse to one. -/
theorem returnedSuggestions_spec (raw : List Suggestion) :
    (returnedSuggestions raw).length ≤ 5 ∧
    (returnedSuggestions raw).Pairwise
      (fun a b => confidenceOrder b.confidence ≤ confidenceOrder a.confidence) ∧
    (returnedSuggestions raw).Pairwise
      (fun a b => ¬(a.type = b.type ∧ a.action = b.action)) ∧
    deduplicateSuggestions [dupSuggestionA, dupSuggestionB] = [dupSuggestionA] := by
  refine ⟨List.length_take_le 5 _, ?_, ?_, by decide⟩
  · have hs := @List.sorted_mergeSort Suggestion
      (fun a b => decide (confidenceOrder b.confidence ≤ confidenceOrder a.confidence))
      (fun a b c hab hbc => by
        simp only [decide_eq_true_eq] at *
        omega)
      (fun a b => by
        simp only [Bool.or_eq_true, decide_eq_true_eq]
        omega)
      (deduplicateSuggestions raw)
    have hp : (prioritizeSuggestions (deduplicateSuggestions raw)).Pairwise
        (fun a b => confidenceOrder b.confidence ≤ confidenceOrder a.confidence) := by
      refine (List.Pairwise.imp ?_ hs)
      intro a b h
      simpa using h
    exact hp.sublist (List.take_sublist 5 _)
  · have hd := pairwise_dedupeAux [] raw
    have hperm : List.Perm (deduplicateSuggestions raw)
        (prioritizeSuggestions (deduplicateSuggestions raw)) :=
      (List.mergeSort_perm (deduplicateSuggestions raw) _).symm
    have hkeys : (prioritizeSuggestions (deduplicateSuggestions raw)).Pairwise
        (fun a b => suggestionKey a ≠ suggestionKey b) :=
      hperm.pairwise hd (fun h he => h he.symm)
    have hpair : (prioritizeSuggestions (deduplicateSuggestions raw)).Pairwise
        (fun a b => ¬(a.type = b.type ∧ a.action = b.action)) := by
      refine List.Pairwise.imp ?_ hkeys
      intro a b hne ⟨ht, ha⟩
      exact hne (by simp [suggestionKey, ht, ha])
    exact hpair.sublist (List.take_sublist 5 _)

/-- The meaningful-field and noise-field sets are disjoint, so a change
counted as meaningful is never noise. -/
theorem meaningful_not_noise {b : Bool} {item : ChangeItem}
    (h : isMeaningfulChange b item = true) : isNoiseChange b item = false := by
  obtain ⟨f, ft, fs, ts⟩ := item
  unfold isMeaningfulChange at h
  unfold isNoiseChange
  cases b with
  | false =>
    simp only [Bool.not_false, Bool.and_true] at h
    simp only [Bool.or_false]
    have hf : f ∈ MEANINGFUL_CHANGES := by
      simpa [List.contains] using h
    fin_cases hf <;> decide
  | true => simp at h

/-- A bot-authored change is never meaningful and always noise. -/
theorem bot_change_noise (item : ChangeItem) :
    isMeaningfulChange true item = false ∧ isNoiseChange true item = true := by
  unfold isMeaningfulChange isNoiseChange
  simp

/-- Per-item effect of the analyzer loop body on the three counters. -/
theorem processItem_counts (b : Bool) (a : String) (c : ℚ)
    (st : AnalyzerState) (item : ChangeItem) :
    (processItem b a c st item).meaningfulChanges =
      st.meaningfulChanges + (if isMeaningfulChange b item then 1 else 0) ∧
    (processItem b a c st item).noiseChanges =
      st.noiseChanges + (if isNoiseChange b item then 1 else 0) ∧
    (processItem b a c st item).totalChanges = st.totalChanges := by
  unfold processItem
  split
  · rename_i hm
    rw [meaningful_not_noise hm]
    refine ⟨?_, ?_, ?_⟩ <;> (repeat' split) <;> simp_all
  · rename_i hm
    simp only [Bool.not_eq_true] at hm
    split
    · simp_all
    · simp_all

/-- Effect of the inner item fold on the three counters. -/
theorem foldl_processItem_counts (b : Bool) (a : String) (c : ℚ)
    (items : List ChangeItem) (st : AnalyzerState) :
    (items.foldl (processItem b a c) st).meaningfulChanges =
      st.meaningfulChanges + items.countP (isMeaningfulChange b) ∧
    (items.foldl (processItem b a c) st).noiseChanges =
      st.noiseChanges + items.countP (isNoiseChange b) ∧
    (items.foldl (processItem b a c) st).totalChanges = st.totalChanges := by
  induction items generalizing st with
  | nil => simp
  | cons i rest ih =>
    obtain ⟨h1, h2, h3⟩ := processItem_counts b a c st i
    obtain ⟨g1, g2, g3⟩ := ih (processItem b a c st i)
    refine ⟨?_, ?_, ?_⟩ <;>
      simp only [List.foldl_cons, List.countP_cons, g1, g2, g3, h1, h2, h3]
    · by_cases hm : isMeaningfulChange b i = true <;>
        (simp [hm]; try omega)
    · by_cases hn : isNoiseChange b i = true <;>
        (simp [hn]; try omega)

/-- Effect of one changelog entry on the three counters. -/
theorem processEntry_counts (st : AnalyzerState) (entry : ChangelogEntry) :
    (processEntry st entry).meaningfulChanges =
      st.meaningfulChanges + entry.items.countP (isMeaningfulChange (isBotUser entry.author)) ∧
    (processEntry st entry).noiseChanges =
      st.noiseChanges + entry.items.countP (isNoiseChange (isBotUser entry.author)) ∧
    (processEntry st entry).totalChanges = st.totalChanges + 1 := by
  unfold processEntry
  obtain ⟨h1, h2, h3⟩ := foldl_processItem_counts (isBotUser entry.author)
    (jsOrStr (entry.author.bind (fun a => a.displayName)) "Unknown") entry.created
    entry.items { st with totalChanges := st.totalChanges + 1 }
  exact ⟨h1, h2, h3⟩

/-- Effect of the whole entry fold on the three counters. -/
theorem foldl_processEntry_counts (changelog : List ChangelogEntry) (st : AnalyzerState) :
    (changelog.foldl processEntry st).meaningfulChanges =
      st.meaningfulChanges +
        (changelog.map
          (fun e => e.items.countP (isMeaningfulChange (isBotUser e.author)))).sum ∧
    (changelog.foldl processEntry st).noiseChanges =
      st.noiseChanges +
        (changelog.map
          (fun e => e.items.countP (isNoiseChange (isBotUser e.author)))).sum ∧
    (changelog.foldl processEntry st).totalChanges = st.totalChanges + changelog.length := by
  induction changelog generalizing st with
  | nil => simp
  | cons e rest ih =>
    obtain ⟨h1, h2, h3⟩ := processEntry_counts st e
    obtain ⟨g1, g2, g3⟩ := ih (processEntry st e)
    refine ⟨?_, ?_, ?_⟩ <;>
      simp only [List.foldl_cons, List.map_cons, List.sum_cons, List.length_cons,
        g1, g2, g3, h1, h2, h3] <;> omega

/-- The meaningful-change count of a full analysis. -/
theorem analyzeChangelog_meaningful_eq (changelog : List ChangelogEntry) (now : ℚ) :
    (analyzeChangelog changelog now).meaningfulChanges =
      (changelog.map
        (fun e => e.items.countP (isMeaningfulChange (isBotUser e.author)))).sum := by
  unfold analyzeChangelog
  split
  · rename_i he
    rw [List.isEmpty_iff.mp he]
    rfl
  · obtain ⟨h1, -, -⟩ := foldl_processEntry_counts changelog initAnalyzerState
    simpa [initAnalyzerState] using h1

/-- The noise-change count of a full analysis. -/
theorem analyzeChangelog_noise_eq (changelog : List ChangelogEntry) (now : ℚ) :
    (analyzeChangelog changelog now).noiseChanges =
      (changelog.map
        (fun e => e.items.countP (isNoiseChange (isBotUser e.author)))).sum := by
  unfold analyzeChangelog
  split
  · rename_i he
    rw [List.isEmpty_iff.mp he]
    rfl
  · obtain ⟨-, h2, -⟩ := foldl_processEntry_counts changelog initAnalyzerState
    simpa [initAnalyzerState] using h2

/-- The total-change count of a full analysis. -/
theorem analyzeChangelog_total_eq (changelog : List ChangelogEntry) (now : ℚ) :
    (analyzeChangelog changelog now).totalChanges = changelog.length := by
  unfold analyzeChangelog
  split
  · rename_i he
    rw [List.isEmpty_iff.mp he]
    rfl
  · obtain ⟨-, -, h3⟩ := foldl_processEntry_counts changelog initAnalyzerState
    simpa [initAnalyzerState] using h3

/-- C2: over any changelog, the number of changes counted as meaningful is
exactly the number of (entry, item) pairs whose field is in the
meaningful-field set with a non-bot author, the number counted as noise is
exactly the number whose field is in the noise-field set or whose author
is a bot, and a bot-authored change is never meaningful and always noise. -/
theorem analyzeChangelog_signal_noise (changelog : List ChangelogEntry) (now : ℚ) :
    (analyzeChangelog changelog now).meaningfulChanges =
      (changelog.map
        (fun e => e.items.countP (isMeaningfulChange (isBotUser e.author)))).sum ∧
    (analyzeChangelog changelog now).noiseChanges =
      (changelog.map
        (fun e => e.items.countP (isNoiseChange (isBotUser e.author)))).sum ∧
    (∀ item : ChangeItem,
      isMeaningfulChange true item = false ∧ isNoiseChange true item = true) :=
  ⟨analyzeChangelog_meaningful_eq changelog now,
   analyzeChangelog_noise_eq changelog now, bot_change_noise⟩

/-- Counting a disjunction of disjoint predicates splits into a sum. -/
theorem countP_or_of_disjoint {α : Type} (p q : α → Bool) (l : List α)
    (h : ∀ x ∈ l, ¬(p x = true ∧ q x = true)) :
    l.countP (fun x => p x || q x) = l.countP p + l.countP q := by
  induction l with
  | nil => simp
  | cons a t ih =>
    have ha := h a (List.mem_cons_self a t)
    have ht := fun x hx => h x (List.mem_cons_of_mem a hx)
    simp only [List.countP_cons, ih ht, Bool.or_eq_true]
    by_cases hp : p a = true <;> by_cases hq : q a = true <;> simp_all <;> omega

/-- A human (non-bot) changelog author. -/
def humanAuthor : Author :=
  { displayName := some "alice", accountType := some "atlassian" }

/-- One history entry batching two field changes: a meaningful assignee
change and a noise rank change, by a human author. -/
def twoItemEntry : ChangelogEntry :=
  { author := some humanAuthor
    created := 0
    items :=
      [{ field := "assignee", fieldtype := "jira", fromString := "bob", toString := "carol" },
       { field := "Rank", fieldtype := "custom", fromString := "1", toString := "2" }] }

/-- C6 counterexample: a single changelog entry carrying two ChangeEvents
yields `totalChanges = 1` (one per entry, not one per ChangeEvent), with
one meaningful and one noise change — so `totalChanges` is smaller than
`meaningfulChanges + noiseChanges`, refuting both "totalChanges equals the
number of ChangeEvents" and the claimed inequality. -/
theorem totalChanges_counts_entries_counterexample :
    twoItemEntry.items.length = 2 ∧
    (analyzeChangelog [twoItemEntry] 0).totalChanges = 1 ∧
    (analyzeChangelog [twoItemEntry] 0).meaningfulChanges = 1 ∧
    (analyzeChangelog [twoItemEntry] 0).noiseChanges = 1 ∧
    ¬((analyzeChangelog [twoItemEntry] 0).totalChanges ≥
        (analyzeChangelog [twoItemEntry] 0).meaningfulChanges +
          (analyzeChangelog [twoItemEntry] 0).noiseChanges) := by
  refine ⟨rfl, ?_, ?_, ?_, ?_⟩ <;> decide

/-- C6 (amended): `totalChanges` counts ChangelogEntry items — one per
history entry, not one per ChangeEvent — and the meaningful and noise
counts together count exactly the ChangeEvents that are meaningful or
noise (changes in neither set by non-bot authors are counted in neither),
with no general relation to `totalChanges`. -/
theorem analyzeChangelog_total_entries (changelog : List ChangelogEntry) (now : ℚ) :
    (analyzeChangelog changelog now).totalChanges = changelog.length ∧
    (analyzeChangelog changelog now).meaningfulChanges +
        (analyzeChangelog changelog now).noiseChanges =
      (changelog.map (fun e => e.items.countP
        (fun i => isMeaningfulChange (isBotUser e.author) i ||
          isNoiseChange (isBotUser e.author) i))).sum := by
  have key : ∀ e : ChangelogEntry,
      e.items.countP (fun i => isMeaningfulChange (isBotUser e.author) i ||
        isNoiseChange (isBotUser e.author) i) =
      e.items.countP (isMeaningfulChange (isBotUser e.author)) +
        e.items.countP (isNoiseChange (isBotUser e.author)) := by
    intro e
    refine countP_or_of_disjoint _ _ _ (fun x _ ⟨hp, hq⟩ => ?_)
    rw [meaningful_not_noise hp] at hq
    exact Bool.false_ne_true hq
  constructor
  · exact analyzeChangelog_total_eq changelog now
  · have hsum : (changelog.map (fun e => e.items.countP
        (fun i => isMeaningfulChange (isBotUser e.author) i ||
          isNoiseChange (isBotUser e.author) i))).sum =
        (changelog.map
          (fun e => e.items.countP (isMeaningfulChange (isBotUser e.author)))).sum +
        (changelog.map
          (fun e => e.items.countP (isNoiseChange (isBotUser e.author)))).sum := by
      induction changelog with
      | nil => rfl
      | cons e rest ih =>
        simp only [List.map_cons, List.sum_cons, ih, key e]
        omega
    rw [hsum, analyzeChangelog_meaningful_eq changelog now,
      analyzeChangelog_noise_eq changelog now]

/-- The loop body of `getHighestSeverity`. -/
def highestStep (highest : Severity) (reason : StallReason) : Severity :=
  if severityOrder reason.severity > severityOrder highest then reason.severity
  else highest

/-- `getHighestSeverity` is the fold of `highestStep` from LOW. -/
theorem getHighestSeverity_eq_foldl (reasons : List StallReason) :
    getHighestSeverity reasons = reasons.foldl highestStep .LOW := rfl

/-- The severity fold from any start value yields the start value or some
reason's severity, never decreases, and dominates every reason. -/
theorem foldl_highestStep_max (rs : List StallReason) (h0 : Severity) :
    (rs.foldl highestStep h0 = h0 ∨ ∃ r ∈ rs, r.severity = rs.foldl highestStep h0) ∧
    severityOrder h0 ≤ severityOrder (rs.foldl highestStep h0) ∧
    ∀ r ∈ rs, severityOrder r.severity ≤ severityOrder (rs.foldl highestStep h0) := by
  induction rs generalizing h0 with
  | nil => exact ⟨Or.inl rfl, Nat.le_refl _, by simp⟩
  | cons a t ih =>
    obtain ⟨ih1, ih2, ih3⟩ := ih (highestStep h0 a)
    have hstep : severityOrder h0 ≤ severityOrder (highestStep h0 a) ∧
        severityOrder a.severity ≤ severityOrder (highestStep h0 a) ∧
        (highestStep h0 a = h0 ∨ highestStep h0 a = a.severity) := by
      unfold highestStep
      split <;> refine ⟨?_, ?_, ?_⟩ <;>
        (simp_all; try omega)
    refine ⟨?_, ?_, ?_⟩
    · rcases ih1 with h | ⟨r, hr, he⟩
      · rcases hstep.2.2 with hs | hs
        · exact Or.inl (by rw [List.foldl_cons, h, hs])
        · exact Or.inr ⟨a, List.mem_cons_self a t, by rw [List.foldl_cons, h, hs]⟩
      · exact Or.inr ⟨r, List.mem_cons_of_mem a hr, he⟩
    · exact Nat.le_trans hstep.1 ih2
    · intro r hr
      rcases List.mem_cons.mp hr with rfl | hmem
      · exact Nat.le_trans hstep.2.1 ih2
      · exact ih3 r hmem

/-- For a non-empty reason list, `getHighestSeverity` is the maximum
severity: it is attained by some reason and dominates all of them. -/
theorem getHighestSeverity_max (rs : List StallReason) (h : rs ≠ []) :
    (∃ r ∈ rs, r.severity = getHighestSeverity rs) ∧
    ∀ r ∈ rs, severityOrder r.severity ≤ severityOrder (getHighestSeverity rs) := by
  rw [getHighestSeverity_eq_foldl]
  obtain ⟨h1, -, h3⟩ := foldl_highestStep_max rs .LOW
  refine ⟨?_, h3⟩
  rcases h1 with hl | hex
  · match rs, h with
    | a :: t, _ =>
      have := h3 a (List.mem_cons_self a t)
      rw [hl] at *
      refine ⟨a, List.mem_cons_self a t, ?_⟩
      cases ha : a.severity <;> rw [ha] at this <;> simp [severityOrder] at this ⊢
  · exact hex

/-- Example reason list with severities [MEDIUM, CRITICAL, HIGH]. -/
def exampleReasons : List StallReason :=
  [{ type := "NO_ACTIVITY", severity := .MEDIUM },
   { type := "HAS_BLOCKERS", severity := .CRITICAL },
   { type := "UNASSIGNED_ACTIVE", severity := .HIGH }]

/-- C3: the classifier's overall severity is the maximum of its reasons'
severities under CRITICAL > HIGH > MEDIUM > LOW (for severities
[MEDIUM, CRITICAL, HIGH] the result is CRITICAL), and the verdict is
stalled iff the reason list is non-empty. -/
theorem stall_verdict_severity (inp : ClassifyInput) :
    ((isStalled inp).isStalled = true ↔ (isStalled inp).reasons ≠ []) ∧
    ((isStalled inp).reasons ≠ [] →
      (∃ r ∈ (isStalled inp).reasons, r.severity = (isStalled inp).severity) ∧
      ∀ r ∈ (isStalled inp).reasons,
        severityOrder r.severity ≤ severityOrder ((isStalled inp).severity)) ∧
    getHighestSeverity exampleReasons = .CRITICAL := by
  refine ⟨?_, ?_, by decide⟩
  · show decide ((stallReasonsOf inp).length > 0) = true ↔ stallReasonsOf inp ≠ []
    simp [List.length_pos]
  · intro h
    exact getHighestSeverity_max (stallReasonsOf inp) h

/-- A classifier input whose status is "Blocked" with every feature
toggle off: the STATUS_BLOCKED detector still fires, giving a non-empty
reason list. -/
def blockedInput : ClassifyInput :=
  { issue :=
      { id := "10001", key := "PIT-1", status := "Blocked", assignee := none
        created := 0, updated := 0 }
    now := 0
    settings :=
      { noHumanCommentThreshold := 96, commentCooldownHours := 24
        maxIssuesPerRun := 50
        features :=
          { detectNoActivity := false, detectNoHumanComments := false
            detectUnassigned := false, detectBlockers := false
            detectAssignedNotProgressing := false, postComments := false
            postStallWarnings := false, postEncouragement := false
            useChangelogAnalysis := false, useContextualSuggestions := false }
        autoActions :=
          { enabled := false, autoPingAssignee := false
            autoPingThresholdHours := 72, autoAddStalledLabel := false
            autoReassignInactive := false, autoMoveStatus := false
            autoEscalateCritical := false }
        activeStatuses := [] }
    changelog := none
    lastHumanComment := none
    blockers := { isBlocked := false, count := 0, blockers := [] }
    thresholds := DEFAULT_THRESHOLDS }

/-- C3 witness: on the "Blocked" input the reason list is non-empty and
the overall severity is attained by one of the reasons. -/
theorem stall_verdict_severity_witness :
    (isStalled blockedInput).reasons ≠ [] ∧
    ∃ r ∈ (isStalled blockedInput).reasons,
      r.severity = (isStalled blockedInput).severity :=
  ⟨by decide, ((stall_verdict_severity blockedInput).2.1 (by decide)).1⟩

/-- The verdict's reason list is the concatenation of the seven checks. -/
theorem reasons_split (inp : ClassifyInput) :
    (isStalled inp).reasons =
      noActivityReasons inp ++ commentReasons inp ++
      assignedNotProgressingReasons inp ++ unassignedReasons inp ++
      blockerReasons inp ++ statusBlockedReasons inp ++ patternReasons inp := rfl

/-- A reason produced by any single check is in the verdict. -/
theorem mem_reasons_of_mem_check {inp : ClassifyInput} {r : StallReason}
    (h : r ∈ noActivityReasons inp ∨ r ∈ assignedNotProgressingReasons inp ∨
      r ∈ statusBlockedReasons inp) : r ∈ (isStalled inp).reasons := by
  rw [reasons_split]
  simp only [List.mem_append]
  tauto

/-- A verdict containing any reason is a stalled verdict. -/
theorem isStalled_true_of_mem {inp : ClassifyInput} {r : StallReason}
    (h : r ∈ (isStalled inp).reasons) : (isStalled inp).isStalled = true := by
  show decide ((stallReasonsOf inp).length > 0) = true
  have : r ∈ stallReasonsOf inp := h
  simp [List.length_pos, List.ne_nil_of_mem this]

/-- The reason record pushed by check 1 (NO_ACTIVITY). -/
def noActivityReason (inp : ClassifyInput) : StallReason where
  type := "NO_ACTIVITY"
  severity :=
    if timeSinceUpdateOf inp >
        getThresholdForStatus inp.thresholds inp.issue.status * 2 then .HIGH
    else .MEDIUM
  hours := some ⌊timeSinceUpdateOf inp⌋
  threshold := some (getThresholdForStatus inp.thresholds inp.issue.status)

/-- The reason record pushed by check 3 (ASSIGNED_NOT_PROGRESSING). -/
def assignedNotProgressingReason (inp : ClassifyInput) (a : User) : StallReason where
  type := "ASSIGNED_NOT_PROGRESSING"
  severity := .HIGH
  assignee := some a.displayName
  hours := some ⌊timeSinceUpdateOf inp⌋

/-- The reason record pushed by check 6 (STATUS_BLOCKED). -/
def statusBlockedReason (inp : ClassifyInput) : StallReason where
  type := "STATUS_BLOCKED"
  severity := .CRITICAL
  hours := some ⌊timeSinceUpdateOf inp⌋

/-- Check 3 fires whenever an assignee is present, the status is
"In Progress", and the effective elapsed time exceeds the "In Progress"
threshold — no feature toggle guards it. -/
theorem assigned_not_progressing_mem (inp : ClassifyInput)
    (ha : inp.issue.assignee.isSome = true)
    (hs : inp.issue.status = "In Progress")
    (ht : timeSinceUpdateOf inp > getThresholdForStatus inp.thresholds "In Progress") :
    ∃ r ∈ (isStalled inp).reasons,
      r.type = "ASSIGNED_NOT_PROGRESSING" ∧ r.severity = .HIGH := by
  rcases hA : inp.issue.assignee with _ | a
  · rw [hA] at ha
    simp at ha
  · refine ⟨assignedNotProgressingReason inp a,
      mem_reasons_of_mem_check (Or.inr (Or.inl ?_)), rfl, rfl⟩
    unfold assignedNotProgressingReasons
    rw [hA]
    dsimp only
    rw [if_pos hs, if_pos ht]
    exact List.mem_singleton.mpr rfl

/-- Check 6 fires whenever the status name is "blocked" up to case —
no feature toggle guards it. -/
theorem status_blocked_mem (inp : ClassifyInput)
    (hb : jsToLower inp.issue.status = "blocked") :
    ∃ r ∈ (isStalled inp).reasons,
      r.type = "STATUS_BLOCKED" ∧ r.severity = .CRITICAL := by
  refine ⟨statusBlockedReason inp,
    mem_reasons_of_mem_check (Or.inr (Or.inr ?_)), rfl, rfl⟩
  unfold statusBlockedReasons
  rw [if_pos hb]
  exact List.mem_singleton.mpr rfl

/-- C1: whenever the NO_ACTIVITY detector is enabled and the effective
elapsed time exceeds the threshold looked up for the issue's status, the
verdict contains a NO_ACTIVITY reason whose severity is HIGH when the
elapsed time also exceeds twice the threshold and MEDIUM otherwise. -/
theorem no_activity_detector (inp : ClassifyInput)
    (hd : inp.settings.features.detectNoActivity = true)
    (ht : timeSinceUpdateOf inp > getThresholdForStatus inp.thresholds inp.issue.status) :
    ∃ r ∈ (isStalled inp).reasons, r.type = "NO_ACTIVITY" ∧
      r.severity = (if timeSinceUpdateOf inp >
          getThresholdForStatus inp.thresholds inp.issue.status * 2 then Severity.HIGH
        else Severity.MEDIUM) := by
  refine ⟨noActivityReason inp,
    mem_reasons_of_mem_check (Or.inl ?_), rfl, rfl⟩
  simp only [noActivityReasons, hd, if_true]
  rw [if_pos ht]
  exact List.mem_singleton.mpr rfl

/-- The spec's scenario input: status "In Progress" with an assignee and
default settings; the snapshot was last updated 50 hours before the
analysis time (50 × 3600000 ms), with no changelog available and a fresh
human comment. -/
def scenarioInput : ClassifyInput :=
  { issue :=
      { id := "10002", key := "PIT-2", status := "In Progress"
        assignee := some { displayName := "dana", active := true }
        created := 0, updated := 0 }
    now := 180000000
    settings := getDefaultSettings
    changelog := none
    lastHumanComment := some { created := 180000000, author := "dana" }
    blockers := { isBlocked := false, count := 0, blockers := [] }
    thresholds := DEFAULT_THRESHOLDS }

/-- C1 witness: in the scenario (threshold 48h, elapsed 50h, assignee
present) the verdict contains NO_ACTIVITY at MEDIUM (50 < 96) and
ASSIGNED_NOT_PROGRESSING at HIGH. -/
theorem no_activity_detector_witness :
    (∃ r ∈ (isStalled scenarioInput).reasons,
      r.type = "NO_ACTIVITY" ∧ r.severity = Severity.MEDIUM) ∧
    (∃ r ∈ (isStalled scenarioInput).reasons,
      r.type = "ASSIGNED_NOT_PROGRESSING" ∧ r.severity = Severity.HIGH) := by
  have h50 : timeSinceUpdateOf scenarioInput = 50 := by
    norm_num [timeSinceUpdateOf, lastActivityOf, changelogAnalysisOf,
      scenarioInput, getDefaultSettings]
  have h48 : getThresholdForStatus scenarioInput.thresholds scenarioInput.issue.status = 48 := by
    decide
  constructor
  · have h := no_activity_detector scenarioInput rfl (by rw [h50, h48]; norm_num)
    rw [h50, h48] at h
    rwa [if_neg (by norm_num)] at h
  · exact assigned_not_progressing_mem scenarioInput rfl rfl
      (by rw [h50]; decide)

/-- C10: checks 3 and 6 are guarded by no feature toggle: for every input
— in particular for any settings value, including one with every toggle
false and any value of the never-consulted `detectAssignedNotProgressing`
flag — an assigned "In Progress" issue past its threshold yields an
ASSIGNED_NOT_PROGRESSING reason, and a status equal to "blocked" up to
case yields a CRITICAL STATUS_BLOCKED reason; both force a stalled
verdict. -/
theorem ungated_detectors :
    (∀ inp : ClassifyInput, inp.issue.assignee.isSome = true →
      inp.issue.status = "In Progress" →
      timeSinceUpdateOf inp > getThresholdForStatus inp.thresholds "In Progress" →
      (∃ r ∈ (isStalled inp).reasons,
        r.type = "ASSIGNED_NOT_PROGRESSING" ∧ r.severity = .HIGH) ∧
      (isStalled inp).isStalled = true) ∧
    (∀ inp : ClassifyInput, jsToLower inp.issue.status = "blocked" →
      (∃ r ∈ (isStalled inp).reasons,
        r.type = "STATUS_BLOCKED" ∧ r.severity = .CRITICAL) ∧
      (isStalled inp).isStalled = true) := by
  constructor
  · intro inp ha hs ht
    obtain ⟨r, hr, hty, hsev⟩ := assigned_not_progressing_mem inp ha hs ht
    exact ⟨⟨r, hr, hty, hsev⟩, isStalled_true_of_mem hr⟩
  · intro inp hb
    obtain ⟨r, hr, hty, hsev⟩ := status_blocked_mem inp hb
    exact ⟨⟨r, hr, hty, hsev⟩, isStalled_true_of_mem hr⟩

/-- The scenario input re-run with every feature toggle switched off. -/
def allOffScenarioInput : ClassifyInput :=
  { scenarioInput with settings := blockedInput.settings }

/-- C10 witness: with all toggles false, the assigned "In Progress" issue
50 hours past its 48-hour threshold and the "Blocked" issue are both
classified as stalled with the expected reasons. -/
theorem ungated_detectors_witness :
    ((∃ r ∈ (isStalled allOffScenarioInput).reasons,
        r.type = "ASSIGNED_NOT_PROGRESSING" ∧ r.severity = .HIGH) ∧
      (isStalled allOffScenarioInput).isStalled = true) ∧
    ((∃ r ∈ (isStalled blockedInput).reasons,
        r.type = "STATUS_BLOCKED" ∧ r.severity = .CRITICAL) ∧
      (isStalled blockedInput).isStalled = true) := by
  constructor
  · refine ungated_detectors.1 allOffScenarioInput rfl rfl ?_
    have h50 : timeSinceUpdateOf allOffScenarioInput = 50 := by
      norm_num [timeSinceUpdateOf, lastActivityOf, changelogAnalysisOf,
        allOffScenarioInput, scenarioInput, blockedInput]
    rw [h50]
    decide
  · exact ungated_detectors.2 blockedInput (by decide)

/-- Outcome predicate: the issue was classified and found stalled. -/
def stalledOutcome (i : DashboardIssue) : Bool :=
  match i.outcome with
  | some v => v.isStalled
  | none => false

/-- Outcome predicate: the issue was classified and found healthy. -/
def healthyOutcome (i : DashboardIssue) : Bool :=
  match i.outcome with
  | some v => !v.isStalled
  | none => false

/-- Outcome predicate: the per-issue analysis failed. -/
def failedOutcome (i : DashboardIssue) : Bool :=
  i.outcome.isNone

/-- Per-issue effect of the dashboard loop on the three counters. -/
theorem processDashboardIssue_counts (now : ℚ) (st : DashboardState)
    (issue : DashboardIssue) :
    (processDashboardIssue now st issue).metrics.stalledIssues =
      st.metrics.stalledIssues + (if stalledOutcome issue then 1 else 0) ∧
    (processDashboardIssue now st issue).metrics.healthyIssues =
      st.metrics.healthyIssues + (if healthyOutcome issue then 1 else 0) ∧
    (processDashboardIssue now st issue).metrics.totalIssues =
      st.metrics.totalIssues := by
  unfold processDashboardIssue stalledOutcome healthyOutcome
  rcases issue.outcome with _ | v
  · simp
  · dsimp only
    by_cases hi : v.isStalled = true
    · rw [hi]
      refine ⟨?_, ?_, ?_⟩ <;> (repeat' split) <;> simp_all
    · simp only [Bool.not_eq_true] at hi
      rw [hi]
      refine ⟨?_, ?_, ?_⟩ <;> (repeat' split) <;> simp_all

/-- Effect of the whole dashboard loop on the three counters. -/
theorem foldl_processDashboardIssue_counts (now : ℚ)
    (issues : List DashboardIssue) (st : DashboardState) :
    (issues.foldl (processDashboardIssue now) st).metrics.stalledIssues =
      st.metrics.stalledIssues + issues.countP stalledOutcome ∧
    (issues.foldl (processDashboardIssue now) st).metrics.healthyIssues =
      st.metrics.healthyIssues + issues.countP healthyOutcome ∧
    (issues.foldl (processDashboardIssue now) st).metrics.totalIssues =
      st.metrics.totalIssues := by
  induction issues generalizing st with
  | nil => simp
  | cons i rest ih =>
    obtain ⟨h1, h2, h3⟩ := processDashboardIssue_counts now st i
    obtain ⟨g1, g2, g3⟩ := ih (processDashboardIssue now st i)
    refine ⟨?_, ?_, ?_⟩ <;>
      simp only [List.foldl_cons, List.countP_cons, g1, g2, g3, h1, h2, h3]
    · by_cases hs : stalledOutcome i = true <;>
        (simp [hs]; try omega)
    · by_cases hh : healthyOutcome i = true <;>
        (simp [hh]; try omega)

/-- Every issue is exactly one of stalled, healthy, or failed. -/
theorem outcome_tripartition (issues : List DashboardIssue) :
    issues.countP stalledOutcome + issues.countP healthyOutcome +
      issues.countP failedOutcome = issues.length := by
  induction issues with
  | nil => rfl
  | cons i rest ih =>
    simp only [List.countP_cons, List.length_cons]
    rcases ho : i.outcome with _ | v
    · simp [stalledOutcome, healthyOutcome, failedOutcome, ho] at *
      omega
    · rcases hi : v.isStalled <;>
        (simp [stalledOutcome, healthyOutcome, failedOutcome, ho, hi] at *; omega)

/-- C7: on a successful listing, `totalIssues` equals
`stalledIssues + healthyIssues` plus the per-item failures — a failing
issue is counted in neither the stalled nor the healthy bucket, and the
loop keeps counting the remaining issues. -/
theorem dashboard_counts (issues : List DashboardIssue) (now : ℚ) :
    (getDashboardMetrics (some issues) now).totalIssues =
      (getDashboardMetrics (some issues) now).stalledIssues +
        (getDashboardMetrics (some issues) now).healthyIssues +
        issues.countP failedOutcome ∧
    (getDashboardMetrics (some issues) now).stalledIssues =
      issues.countP stalledOutcome ∧
    (getDashboardMetrics (some issues) now).healthyIssues =
      issues.countP healthyOutcome := by
  obtain ⟨h1, h2, h3⟩ := foldl_processDashboardIssue_counts now issues
    ⟨⟨issues.length, 0, 0, [], [], ⟨0, 0, 0, 0⟩, [], 0, none, []⟩, 0, []⟩
  have htri := outcome_tripartition issues
  unfold getDashboardMetrics
  dsimp only
  split <;>
    (refine ⟨?_, ?_, ?_⟩ <;> dsimp only <;> simp only [h1, h2, h3] <;> omega)

end Pitstop
